import Mathlib

/-!
Verification of the task-manager orchestrator (git chat assistant actor).

Shallow embedding of src/src/lib.rs and src/src/protocol.rs:
structured values replace serde_json values, byte blobs produced by the
state codec are modelled by the concrete encoder below, and host
primitives (send / shutdown / spawn) are modelled as recorded effects
whose outcomes are supplied by explicit oracle arguments.  Fallible
serde decoding of inbound payloads is modelled by passing the decode
outcome (Except of the serde error text) as an argument.
-/

namespace GitChat

/-- Structured value format, modelling serde_json Value.  Object fields
are kept as an association list; the source only ever inserts absent
keys and looks keys up, so list order is never observed by a theorem. -/
inductive Json where
  | null
  | bool (b : Bool)
  | num (q : Rat)
  | str (s : String)
  | arr (elems : List Json)
  | obj (fields : List (String × Json))

/-- Field lookup in an object field list, modelling Map::get / contains_key. -/
def lookupField : List (String × Json) → String → Option Json
  | [], _ => none
  | (k, v) :: fs, key => if k = key then some v else lookupField fs key

/-- Value lookup, none on non-objects. -/
def Json.lookup : Json → String → Option Json
  | .obj fs, key => lookupField fs key
  | _, _ => none

/-- One escaped character of a JSON string literal (quote, backslash and
newline escaped; other characters passed through). -/
def escapeChar (c : Char) : String :=
  if c = '"' then "\\\"" else
  if c = '\\' then "\\\\" else
  if c = '\n' then "\\n" else String.singleton c

/-- JSON string literal encoder. -/
def encodeJsonString (s : String) : String :=
  "\"" ++ String.join (s.data.map escapeChar) ++ "\""

/-- Number rendering for the encoder.  The exact digit format of
serde_json is not reproduced; no theorem inspects rendered digits, only
whole-encoding equality of equal values. -/
def renderNum (q : Rat) : String :=
  if q.den = 1 then toString q.num else toString q.num ++ "/" ++ toString q.den

mutual
/-- Compact JSON encoder, modelling serde_json::to_vec. -/
def encodeJson : Json → String
  | .null => "null"
  | .bool true => "true"
  | .bool false => "false"
  | .num q => renderNum q
  | .str s => encodeJsonString s
  | .arr xs => "[" ++ encodeJsonList xs ++ "]"
  | .obj fs => "\x7b" ++ encodeJsonFields fs ++ "\x7d"

/-- Encoder for array elements, comma separated. -/
def encodeJsonList : List Json → String
  | [] => ""
  | [x] => encodeJson x
  | x :: y :: xs => encodeJson x ++ "," ++ encodeJsonList (y :: xs)

/-- Encoder for object fields, comma separated. -/
def encodeJsonFields : List (String × Json) → String
  | [] => ""
  | [(k, v)] => encodeJsonString k ++ ":" ++ encodeJson v
  | (k, v) :: f :: fs =>
      encodeJsonString k ++ ":" ++ encodeJson v ++ "," ++ encodeJsonFields (f :: fs)
end

/-- Manifest path constant CHAT_STATE_MANIFEST_PATH from lib.rs. -/
def CHAT_STATE_MANIFEST_PATH : String :=
  "/Users/colinrozzi/work/actor-registry/chat-state/manifest.toml"

/-- Manifest path constant TASK_MONITOR_MANIFEST_PATH from lib.rs. -/
def TASK_MONITOR_MANIFEST_PATH : String :=
  "https://github.com/colinrozzi/task-monitor-mcp-actor/releases/latest/download/manifest.toml"

/-- Manifest path constant GIT_MCP_MANIFEST_PATH from lib.rs. -/
def GIT_MCP_MANIFEST_PATH : String :=
  "https://github.com/colinrozzi/git-mcp-actor/releases/latest/download/manifest.toml"

/-- Role of a chat message (genai_types); only the variants this crate
can construct matter, User is the one actually used. -/
inductive Role where
  | user
  | assistant
  | system

/-- Message content (genai_types); the crate only builds Text content. -/
inductive MessageContent where
  | text (text : String)

/-- Chat message (genai_types::Message). -/
structure Message where
  role : Role
  content : List MessageContent

/-- enum GitChatRequest from lib.rs. -/
inductive GitChatRequest where
  | GetChatStateActorId
  | AddMessage (message : Message)
  | StartChat

/-- enum GitChatResponse from lib.rs. -/
inductive GitChatResponse where
  | ChatStateActorId (actor_id : String)
  | Success
  | Error (message : String)

/-- enum ChatStateRequest from protocol.rs (messages sent to the
chat-state worker). -/
inductive ChatStateRequest where
  | AddMessage (message : Message)
  | GenerateCompletion

/-- struct GitAssistantConfig from lib.rs: the caller-supplied
configuration overrides parsed from the initial state bytes.  The serde
flatten field other collects unknown keys as an object. -/
structure GitAssistantConfig where
  current_directory : Option String
  task : Option String
  model_config : Option Json
  temperature : Option Rat
  max_tokens : Option Nat
  system_prompt : Option String
  title : Option String
  description : Option String
  mcp_servers : Option Json
  other : Json

/-- impl Default for GitAssistantConfig. -/
def GitAssistantConfig.default : GitAssistantConfig :=
  { current_directory := none
    task := none
    model_config := none
    temperature := none
    max_tokens := none
    system_prompt := none
    title := none
    description := none
    mcp_servers := none
    other := Json.obj [] }

/-- struct GitChatState from lib.rs: the persistent orchestrator state. -/
structure GitChatState where
  actor_id : String
  chat_state_actor_id : Option String
  original_config : Json
  current_directory : Option String
  task : Option String

/-- GitChatState::new. -/
def GitChatState.new (actorId : String) (config : Json)
    (currentDirectory : Option String) (task : Option String) : GitChatState :=
  { actor_id := actorId
    chat_state_actor_id := none
    original_config := config
    current_directory := currentDirectory
    task := task }

/-- GitChatState::set_chat_state_actor_id. -/
def GitChatState.set_chat_state_actor_id (s : GitChatState) (chatActorId : String) :
    GitChatState :=
  { s with chat_state_actor_id := some chatActorId }

/-- serde serialization of Option String. -/
def optStrJson : Option String → Json
  | some s => Json.str s
  | none => Json.null

/-- serde serialization of GitChatState (field order = declaration order). -/
def GitChatState.toJson (s : GitChatState) : Json :=
  Json.obj
    [("actor_id", Json.str s.actor_id),
     ("chat_state_actor_id", optStrJson s.chat_state_actor_id),
     ("original_config", s.original_config),
     ("current_directory", optStrJson s.current_directory),
     ("task", optStrJson s.task)]

/-- State codec encoder: serde_json::to_vec of a GitChatState.  Valid
state byte blobs are exactly the values of this function. -/
def encodeGitChatState (s : GitChatState) : String :=
  encodeJson s.toJson

/-- struct ChainEvent from lib.rs. -/
structure ChainEvent where
  hash : List Nat
  parent_hash : Option (List Nat)
  event_type : String
  data : List Nat
  timestamp : Nat
  description : Option String

/-- WitErrorType (theater bindings): the source treats Internal
specially and every other kind uniformly via a wildcard arm; the
non-internal kinds are represented by these remaining constructors. -/
inductive WitErrorType where
  | internal
  | runtime
  | external

/-- WitActorError (theater bindings): error kind plus optional payload
bytes. -/
structure WitActorError where
  error_type : WitErrorType
  data : Option (List Nat)

/-- ChannelAccept (theater bindings). -/
structure ChannelAccept where
  accepted : Bool
  message : Option (List Nat)

/-- One host-side effect issued during a call: a message-server send to
a target actor (payload kept structured) or a runtime shutdown request. -/
inductive HostEffect where
  | send (target : String) (msg : ChatStateRequest)
  | shutdown (data : Option (List Nat))

/-- True exactly on a send of the generate_completion request. -/
def isGenerateSend : HostEffect → Bool
  | HostEffect.send _ ChatStateRequest.GenerateCompletion => true
  | _ => false

/-- Number of generate_completion sends in an effect list. -/
def genCount (effs : List HostEffect) : Nat :=
  (effs.filter isGenerateSend).length

/-- True exactly on a shutdown request. -/
def isShutdown : HostEffect → Bool
  | HostEffect.shutdown _ => true
  | _ => false

/-- Number of shutdown requests in an effect list. -/
def shutdownCount (effs : List HostEffect) : Nat :=
  (effs.filter isShutdown).length

/-- Completion instruction appended when config.task.is_some() (lib.rs
lines 689-690). -/
def completionInstructionWithTask : String :=
  "\n\nIMPORTANT: When you have completed your assigned task, you MUST call the \x27task_complete\x27 tool to signal that the work is finished. This allows the system to properly conclude the task session."

/-- Completion instruction appended when no task is set (lib.rs lines
692-693). -/
def completionInstructionNoTask : String :=
  "\n\nNOTE: You have access to a \x27task_complete\x27 tool. Use it if the user explicitly asks you to complete a specific task or when you finish a well-defined piece of work."

/-- Task context for task "commit" (lib.rs lines 595-608). -/
def commitTaskContext : String :=
  "\n\nTASK: AUTOMATED COMMIT\nYour task is to analyze the current repository and create appropriate commits:\n\nSTEPS:\n1. Check git status to identify changed files\n2. Review changes using git diff to understand what was modified\n3. Stage appropriate files for logical commits\n4. Create meaningful, conventional commit messages\n5. Execute commits with clear explanations\n6. When all commits are complete, use the task_complete tool\n\nGOAL: Create clean, atomic commits with descriptive messages. If there are multiple logical changes, create separate commits. Always explain your reasoning and call task_complete when finished."

/-- Task context for task "review" (lib.rs lines 612-624). -/
def reviewTaskContext : String :=
  "\n\nTASK: CODE REVIEW\nYour task is to thoroughly review the current code changes:\n\nSTEPS:\n1. Check git status and diff to understand all changes\n2. Analyze code quality, style, and architecture\n3. Identify potential bugs, security issues, or performance problems\n4. Suggest specific improvements with examples\n5. Provide constructive feedback on implementation choices\n6. When review is complete, use the task_complete tool\n\nGOAL: Provide thorough, constructive code review that helps improve code quality. Focus on being educational and actionable."

/-- Task context for task "rebase" (lib.rs lines 628-640). -/
def rebaseTaskContext : String :=
  "\n\nTASK: INTERACTIVE REBASE\nYour task is to help clean up the git history through rebase:\n\nSTEPS:\n1. Analyze current branch history and commit structure\n2. Plan an appropriate rebase strategy\n3. Guide through interactive rebase steps\n4. Help resolve any merge conflicts that arise\n5. Verify the final history is clean and logical\n6. When rebase is complete, use the task_complete tool\n\nGOAL: Achieve a clean, linear git history while preserving all important changes and maintaining code integrity."

/-- Task context for task "analyze" (lib.rs lines 644-656). -/
def analyzeTaskContext : String :=
  "\n\nTASK: REPOSITORY ANALYSIS\nYour task is to provide a comprehensive analysis of the repository:\n\nSTEPS:\n1. Examine repository structure and organization\n2. Analyze recent commit history and patterns\n3. Review current branch state and outstanding changes\n4. Identify potential issues or improvements\n5. Provide actionable recommendations\n6. When analysis is complete, use the task_complete tool\n\nGOAL: Provide valuable insights about the repository state, development patterns, and potential improvements."

/-- Task context for task "cleanup" (lib.rs lines 660-672). -/
def cleanupTaskContext : String :=
  "\n\nTASK: REPOSITORY CLEANUP\nYour task is to clean up and organize the repository:\n\nSTEPS:\n1. Identify untracked files, stale branches, and clutter\n2. Review .gitignore and suggest improvements\n3. Clean up unnecessary files or directories\n4. Organize commits if needed (squash, reorder)\n5. Update documentation if outdated\n6. When cleanup is complete, use the task_complete tool\n\nGOAL: Leave the repository in a clean, organized state that follows best practices and is easy to navigate."

/-- task_context selection (lib.rs lines 592-685): known task names map
to their canned context, unknown or absent task names map to the empty
string. -/
def taskContextFor (task : Option String) : String :=
  match task with
  | some t =>
      if t = "commit" then commitTaskContext else
      if t = "review" then reviewTaskContext else
      if t = "rebase" then rebaseTaskContext else
      if t = "analyze" then analyzeTaskContext else
      if t = "cleanup" then cleanupTaskContext else ""
  | none => ""

/-- Fixed prefix of the default git system prompt (lib.rs lines
697-716, the format! template before the appended contexts). -/
def gitPromptBase : String :=
  "You are a Git Task Assistant with access to git tools. You specialize in completing specific git-related tasks efficiently and thoroughly.\n\nAVAILABLE CAPABILITIES:\n- Git repository operations (status, diff, log, branch management)\n- File staging and commit creation\n- Branch operations and history analysis\n- Code review and quality assessment\n- Repository cleanup and organization\n- Task completion signaling\n\nAPPROACH:\n- Always start by understanding the current repository state\n- Break down complex tasks into clear steps\n- Provide explanations for all git operations\n- Follow git best practices and conventions\n- Signal completion when tasks are finished"

/-- directory_context (lib.rs lines 580-589). -/
def directoryContextFor (currentDirectory : Option String) : String :=
  match currentDirectory with
  | some dir =>
      "\n\nWORKING DIRECTORY: " ++ dir ++ "\nAll git operations should be performed in this directory."
  | none => ""

/-- default_temperature by task (lib.rs lines 767-774). -/
def defaultTemperature (task : Option String) : Rat :=
  match task with
  | some t =>
      if t = "commit" then 3/10 else
      if t = "review" then 5/10 else
      if t = "rebase" then 2/10 else
      if t = "analyze" then 6/10 else
      if t = "cleanup" then 3/10 else 7/10
  | none => 7/10

/-- default_title by task (lib.rs lines 780-788). -/
def defaultTitle (task : Option String) : String :=
  match task with
  | some t =>
      if t = "commit" then "Git Commit Assistant" else
      if t = "review" then "Git Code Review Assistant" else
      if t = "rebase" then "Git Rebase Assistant" else
      if t = "analyze" then "Git Analysis Assistant" else
      if t = "cleanup" then "Git Cleanup Assistant" else "Git Task Assistant"
  | none => "Git Assistant"

/-- default_description (lib.rs lines 791-794). -/
def defaultDescription (task : Option String) : String :=
  "AI assistant for git " ++ task.getD "management" ++ " tasks"

/-- default_model_config (lib.rs lines 734-737). -/
def defaultModelConfig : Json :=
  Json.obj [("model", Json.str "claude-sonnet-4-20250514"),
            ("provider", Json.str "anthropic")]

/-- default_mcp_servers (lib.rs lines 740-758): git tool server plus
task-monitor server whose init_state names this orchestrator. -/
def defaultMcpServers (selfId : String) : Json :=
  Json.arr
    [Json.obj
      [("actor_id", Json.null),
       ("actor", Json.obj [("manifest_path", Json.str GIT_MCP_MANIFEST_PATH)]),
       ("tools", Json.null)],
     Json.obj
      [("actor_id", Json.null),
       ("actor", Json.obj
          [("manifest_path", Json.str TASK_MONITOR_MANIFEST_PATH),
           ("init_state", Json.obj [("management_actor", Json.str selfId)])]),
       ("tools", Json.null)]]

/-- Field list of the configuration object as built by lib.rs lines
760-815, before the pass-through merge of additional caller fields. -/
def baseFields (selfId : String) (currentDirectory : Option String)
    (config : GitAssistantConfig) : List (String × Json) :=
  let directoryContext := directoryContextFor currentDirectory
  let taskContext := taskContextFor config.task
  let completionInstruction :=
    if config.task.isSome then completionInstructionWithTask
    else completionInstructionNoTask
  let defaultGitSystemPrompt :=
    gitPromptBase ++ directoryContext ++ taskContext ++ completionInstruction
  let finalSystemPrompt :=
    match config.system_prompt with
    | some customPrompt =>
        customPrompt ++ directoryContext ++ taskContext ++ completionInstruction
    | none => defaultGitSystemPrompt
  let modelConfig := config.model_config.getD defaultModelConfig
  let temperature := config.temperature.getD (defaultTemperature config.task)
  let maxTokens := config.max_tokens.getD 8192
  let title := config.title.getD (defaultTitle config.task)
  let description := config.description.getD (defaultDescription config.task)
  let mcpServers := config.mcp_servers.getD (defaultMcpServers selfId)
  [("model_config", modelConfig),
   ("temperature", Json.num temperature),
   ("max_tokens", Json.num (maxTokens : Rat)),
   ("system_prompt", Json.str finalSystemPrompt),
   ("title", Json.str title),
   ("description", Json.str description),
   ("mcp_servers", mcpServers)]

/-- The pre-merge configuration object (lib.rs lines 807-815). -/
def gitConfigBase (selfId : String) (currentDirectory : Option String)
    (config : GitAssistantConfig) : Json :=
  Json.obj (baseFields selfId currentDirectory config)

/-- The merge loop of lib.rs lines 818-826: walk the extra fields and
insert each one only when its key is not already present. -/
def insertMissing (fs : List (String × Json)) : List (String × Json) → List (String × Json)
  | [] => fs
  | (k, v) :: rest =>
      insertMissing (if (lookupField fs k).isSome then fs else fs ++ [(k, v)]) rest

/-- Merge of the pass-through extension fields into the built object
(first-writer-wins); non-object extension values merge nothing. -/
def mergeOther (base : Json) (other : Json) : Json :=
  match base, other with
  | Json.obj fs, Json.obj os => Json.obj (insertMissing fs os)
  | b, _ => b

/-- fn create_git_optimized_config (lib.rs lines 572-830). -/
def createGitOptimizedConfig (selfId : String) (currentDirectory : Option String)
    (config : GitAssistantConfig) : Json :=
  mergeOther (gitConfigBase selfId currentDirectory config) config.other

/-- fn init (lib.rs lines 117-178).  The initial state bytes are
modelled by their parse outcome: a GitAssistantConfig when present and
parseable, none both when no state was given and when parsing failed
(the source uses the default configuration in both cases).  The spawn
collaborator outcome is the spawnRes argument (ok = new worker id,
error = spawn failure text). -/
def initActor (selfId : String) (initialConfig : Option GitAssistantConfig)
    (spawnRes : Except String String) : Except String GitChatState :=
  let pieces :=
    match initialConfig with
    | some config =>
        (createGitOptimizedConfig selfId config.current_directory config,
         config.current_directory, config.task)
    | none =>
        (createGitOptimizedConfig selfId none GitAssistantConfig.default,
         none, none)
  let gitState := GitChatState.new selfId pieces.1 pieces.2.1 pieces.2.2
  match spawnRes with
  | Except.ok chatActorId => Except.ok (gitState.set_chat_state_actor_id chatActorId)
  | Except.error e => Except.error ("Failed to spawn chat state actor: " ++ e)

/-- Canned auto-initiation message per task (lib.rs lines 363-370). -/
def autoMessageFor (task : String) : String :=
  if task = "commit" then
    "Please analyze the repository and commit any pending changes with appropriate commit messages. Start by checking git status to see what files have changed."
  else if task = "review" then
    "Please perform a comprehensive code review of the current changes. Start by examining what has been modified."
  else if task = "rebase" then
    "Please help me clean up the git history through an interactive rebase. Start by showing the current commit history."
  else if task = "analyze" then
    "Please provide a comprehensive analysis of this repository. Start by examining the overall structure and recent activity."
  else if task = "cleanup" then
    "Please help clean up and organize this repository. Start by identifying what needs attention."
  else
    "Please proceed with the assigned task. Let me know if you need clarification on what should be done."

/-- fn handle_send (lib.rs lines 262-300), for a valid (decodable)
input state s.  The payload argument is the outcome of parsing the raw
bytes as TaskComplete (error carries the serde error text).  The result
pairs the call outcome (ok = re-encoded returned state bytes) with the
host effects issued during the call. -/
def handleSend (s : GitChatState) (payload : Except String Unit) :
    Except String String × List HostEffect :=
  match payload with
  | Except.ok _ =>
      (Except.ok (encodeGitChatState s), [HostEffect.shutdown none])
  | Except.error e =>
      (Except.error ("Failed to parse message: " ++ e), [])

/-- fn handle_request (lib.rs lines 302-530), for a valid (decodable)
input state s.  The req argument is the outcome of parsing the request
bytes as GitChatRequest; sendRes gives the host outcome of the k-th
send issued during this call (error carries the debug text of the send
error).  Result: returned state bytes, response, issued effects.  Every
arm re-serializes the unchanged git_state for the returned state slot,
as the source does on each path. -/
def handleRequest (s : GitChatState) (req : Except String GitChatRequest)
    (sendRes : Nat → Except String Unit) :
    Option String × GitChatResponse × List HostEffect :=
  match req with
  | Except.error e =>
      (some (encodeGitChatState s),
       GitChatResponse.Error ("Failed to parse request: " ++ e), [])
  | Except.ok GitChatRequest.StartChat =>
      match s.task with
      | some task =>
          match s.chat_state_actor_id with
          | some chatActorId =>
              let autoTaskMessage := ChatStateRequest.AddMessage
                { role := Role.user,
                  content := [MessageContent.text (autoMessageFor task)] }
              match sendRes 0 with
              | Except.ok _ =>
                  match sendRes 1 with
                  | Except.ok _ =>
                      (some (encodeGitChatState s), GitChatResponse.Success,
                       [HostEffect.send chatActorId autoTaskMessage,
                        HostEffect.send chatActorId ChatStateRequest.GenerateCompletion])
                  | Except.error e =>
                      (some (encodeGitChatState s),
                       GitChatResponse.Error ("Failed to send auto generation request: " ++ e),
                       [HostEffect.send chatActorId autoTaskMessage,
                        HostEffect.send chatActorId ChatStateRequest.GenerateCompletion])
              | Except.error e =>
                  (some (encodeGitChatState s),
                   GitChatResponse.Error ("Failed to send auto task message: " ++ e),
                   [HostEffect.send chatActorId autoTaskMessage])
          | none =>
              (some (encodeGitChatState s),
               GitChatResponse.Error
                 "Chat state actor not available for auto task: Chat state actor not initialized",
               [])
      | none => (some (encodeGitChatState s), GitChatResponse.Success, [])
  | Except.ok GitChatRequest.GetChatStateActorId =>
      match s.chat_state_actor_id with
      | some actorId =>
          (some (encodeGitChatState s), GitChatResponse.ChatStateActorId actorId, [])
      | none =>
          (some (encodeGitChatState s),
           GitChatResponse.Error "Chat state actor not initialized", [])
  | Except.ok (GitChatRequest.AddMessage message) =>
      match s.chat_state_actor_id with
      | some chatActorId =>
          let addMessage := ChatStateRequest.AddMessage message
          match sendRes 0 with
          | Except.ok _ =>
              match sendRes 1 with
              | Except.ok _ =>
                  (some (encodeGitChatState s), GitChatResponse.Success,
                   [HostEffect.send chatActorId addMessage,
                    HostEffect.send chatActorId ChatStateRequest.GenerateCompletion])
              | Except.error e =>
                  (some (encodeGitChatState s),
                   GitChatResponse.Error ("Failed to send generation request: " ++ e),
                   [HostEffect.send chatActorId addMessage,
                    HostEffect.send chatActorId ChatStateRequest.GenerateCompletion])
          | Except.error e =>
              (some (encodeGitChatState s),
               GitChatResponse.Error ("Failed to forward message: " ++ e),
               [HostEffect.send chatActorId addMessage])
      | none =>
          (some (encodeGitChatState s),
           GitChatResponse.Error "Chat state actor not initialized", [])

/-- Outcome of fn handle_child_error: the source either traps (panics
on Option::unwrap of an absent payload) or returns Err; it never
returns Ok. -/
inductive ChildErrorResult where
  | panic
  | err (msg : String)

/-- fn handle_child_error (lib.rs lines 201-240).  decodeChainEvent
models serde_json::from_slice for ChainEvent (error carries the serde
error text); utf8Lossy models String::from_utf8_lossy.  The state bytes
argument is never decoded by the source and does not influence the
result. -/
def handleChildError (decodeChainEvent : List Nat → Except String ChainEvent)
    (utf8Lossy : List Nat → String)
    (state : Option String) (child : String) (error : WitActorError) :
    ChildErrorResult :=
  match error.error_type, error.data with
  | WitErrorType.internal, none => ChildErrorResult.panic
  | WitErrorType.internal, some bytes =>
      match decodeChainEvent bytes with
      | Except.ok errorEvent =>
          ChildErrorResult.err
            ("Internal error in child " ++ child ++ ": " ++ utf8Lossy errorEvent.data)
      | Except.error e =>
          ChildErrorResult.err ("Failed to parse internal error data: " ++ e)
  | _, none => ChildErrorResult.panic
  | _, some bytes =>
      ChildErrorResult.err ("Other error in child " ++ child ++ ": " ++ utf8Lossy bytes)

/-- fn handle_child_exit (lib.rs lines 242-249): logs and returns the
state bytes untouched; no host effect is issued. -/
def handleChildExit (state : Option String) (childId : String)
    (exitState : Option (List Nat)) : Option String × List HostEffect :=
  (state, [])

/-- fn handle_child_external_stop (lib.rs lines 251-258): logs and
returns the state bytes untouched. -/
def handleChildExternalStop (state : Option String) (childId : String) :
    Option String × List HostEffect :=
  (state, [])

/-- fn handle_channel_open (lib.rs lines 532-544): always accepts. -/
def handleChannelOpen (state : Option String) :
    Option String × ChannelAccept :=
  (state, { accepted := true, message := none })

/-- fn handle_channel_close (lib.rs lines 546-556). -/
def handleChannelClose (state : Option String) (channelId : String) :
    Option String :=
  state

/-- fn handle_channel_message (lib.rs lines 558-568). -/
def handleChannelMessage (state : Option String) (channelId : String)
    (message : List Nat) : Option String :=
  state

/-- Concrete state used by counterexamples and witnesses: worker id is
set to chat-1 and a commit task is carried. -/
def exampleState : GitChatState :=
  { actor_id := "self-1"
    chat_state_actor_id := some "chat-1"
    original_config := Json.null
    current_directory := none
    task := some "commit" }

/-- Send oracle on which every send fails. -/
def failOracle : Nat → Except String Unit :=
  fun _ => Except.error "boom"

/-- Concrete inbound message used by witnesses. -/
def exMessage : Message :=
  { role := Role.user, content := [MessageContent.text "hi"] }

/-- Caller configuration with every override supplied and a
pass-through field colliding with a derived key, used by the C7
witness. -/
def wCfg : GitAssistantConfig :=
  { current_directory := none
    task := some "commit"
    model_config := some (Json.str "mc")
    temperature := some (1/2)
    max_tokens := some 4096
    system_prompt := none
    title := some "T"
    description := some "D"
    mcp_servers := some (Json.arr [])
    other := Json.obj [("temperature", Json.num 99), ("extra", Json.str "x")] }

/-- Caller configuration naming only the commit task (scenario B). -/
def commitConfig : GitAssistantConfig :=
  { GitAssistantConfig.default with task := some "commit" }

/-- Returned state bytes that encode a state whose worker id is w. -/
def hasWorker (bytes : Option String) (w : String) : Prop :=
  ∃ s : GitChatState, bytes = some (encodeGitChatState s) ∧ s.chat_state_actor_id = some w

/-- Association helper for string concatenation. -/
theorem strAppendAssoc (a b c : String) : (a ++ b) ++ c = a ++ (b ++ c) := by
  cases a with
  | mk xs =>
    cases b with
    | mk ys =>
      cases c with
      | mk zs =>
        show String.mk ((xs ++ ys) ++ zs) = String.mk (xs ++ (ys ++ zs))
        rw [List.append_assoc]

/-- Looking a key up after appending fields cannot change a hit. -/
theorem lookupField_append_of_some {fs : List (String × Json)} {key : String} {v : Json}
    (h : lookupField fs key = some v) (gs : List (String × Json)) :
    lookupField (fs ++ gs) key = some v := by
  induction fs with
  | nil => simp [lookupField] at h
  | cons p fs ih =>
    obtain ⟨k1, v1⟩ := p
    by_cases hk : k1 = key
    · simp [lookupField, hk] at h ⊢
      exact h
    · simp [lookupField, hk] at h ⊢
      exact ih h

/-- The merge loop never changes a key that is already present. -/
theorem insertMissing_preserves {fs : List (String × Json)} {key : String} {v : Json}
    (os : List (String × Json)) (h : lookupField fs key = some v) :
    lookupField (insertMissing fs os) key = some v := by
  induction os generalizing fs with
  | nil => simpa [insertMissing] using h
  | cons p os ih =>
    obtain ⟨k2, v2⟩ := p
    rw [insertMissing]
    split
    · exact ih h
    · exact ih (lookupField_append_of_some h _)

/-- Any key present in the pre-merge configuration object keeps its
value in the final configuration document. -/
theorem create_lookup_of_base {selfId : String} {dir : Option String}
    {cfg : GitAssistantConfig} {key : String} {v : Json}
    (h : (gitConfigBase selfId dir cfg).lookup key = some v) :
    (createGitOptimizedConfig selfId dir cfg).lookup key = some v := by
  have h' : lookupField (baseFields selfId dir cfg) key = some v := h
  unfold createGitOptimizedConfig
  cases ho : cfg.other with
  | obj os => exact insertMissing_preserves os h'
  | null => exact h'
  | bool b => exact h'
  | num q => exact h'
  | str t => exact h'
  | arr xs => exact h'

/-- Pre-merge lookup of the temperature field. -/
theorem gitConfigBase_temperature (selfId : String) (dir : Option String)
    (cfg : GitAssistantConfig) :
    (gitConfigBase selfId dir cfg).lookup "temperature" =
      some (Json.num (cfg.temperature.getD (defaultTemperature cfg.task))) := rfl

/-- Pre-merge lookup of the max_tokens field. -/
theorem gitConfigBase_max_tokens (selfId : String) (dir : Option String)
    (cfg : GitAssistantConfig) :
    (gitConfigBase selfId dir cfg).lookup "max_tokens" =
      some (Json.num ((cfg.max_tokens.getD 8192 : Nat) : Rat)) := rfl

/-- Pre-merge lookup of the title field. -/
theorem gitConfigBase_title (selfId : String) (dir : Option String)
    (cfg : GitAssistantConfig) :
    (gitConfigBase selfId dir cfg).lookup "title" =
      some (Json.str (cfg.title.getD (defaultTitle cfg.task))) := rfl

/-- Pre-merge lookup of the description field. -/
theorem gitConfigBase_description (selfId : String) (dir : Option String)
    (cfg : GitAssistantConfig) :
    (gitConfigBase selfId dir cfg).lookup "description" =
      some (Json.str (cfg.description.getD (defaultDescription cfg.task))) := rfl

/-- Pre-merge lookup of the model_config field. -/
theorem gitConfigBase_model_config (selfId : String) (dir : Option String)
    (cfg : GitAssistantConfig) :
    (gitConfigBase selfId dir cfg).lookup "model_config" =
      some (cfg.model_config.getD defaultModelConfig) := rfl

/-- Pre-merge lookup of the mcp_servers field. -/
theorem gitConfigBase_mcp_servers (selfId : String) (dir : Option String)
    (cfg : GitAssistantConfig) :
    (gitConfigBase selfId dir cfg).lookup "mcp_servers" =
      some (cfg.mcp_servers.getD (defaultMcpServers selfId)) := rfl

/-- Every arm of handle_request returns the re-encoding of the
unchanged input state in the state slot. -/
theorem handleRequest_fst (s : GitChatState) (req : Except String GitChatRequest)
    (sendRes : Nat → Except String Unit) :
    (handleRequest s req sendRes).1 = some (encodeGitChatState s) := by
  cases req with
  | error e => rfl
  | ok r =>
    cases r with
    | StartChat =>
      cases ht : s.task with
      | none => simp [handleRequest, ht]
      | some task =>
        cases hc : s.chat_state_actor_id with
        | none => simp [handleRequest, ht, hc]
        | some cid =>
          cases h0 : sendRes 0 with
          | error e => simp [handleRequest, ht, hc, h0]
          | ok u =>
            cases h1 : sendRes 1 with
            | ok v => simp [handleRequest, ht, hc, h0, h1]
            | error e => simp [handleRequest, ht, hc, h0, h1]
    | GetChatStateActorId =>
      cases hc : s.chat_state_actor_id with
      | none => simp [handleRequest, hc]
      | some cid => simp [handleRequest, hc]
    | AddMessage m =>
      cases hc : s.chat_state_actor_id with
      | none => simp [handleRequest, hc]
      | some cid =>
        cases h0 : sendRes 0 with
        | error e => simp [handleRequest, hc, h0]
        | ok u =>
          cases h1 : sendRes 1 with
          | ok v => simp [handleRequest, hc, h0, h1]
          | error e => simp [handleRequest, hc, h0, h1]

/-- For every ok spawn outcome, init stores the spawned worker id. -/
theorem initActor_sets_worker (selfId : String) (cfg : Option GitAssistantConfig)
    (cid : String) :
    ∃ st, initActor selfId cfg (Except.ok cid) = Except.ok st ∧
      st.chat_state_actor_id = some cid := by
  cases cfg with
  | none => exact ⟨_, rfl, rfl⟩
  | some c => exact ⟨_, rfl, rfl⟩

/-- C1 (amended): handle_child_exit returns the state blob unchanged
and issues no shutdown request, for every child id — including a child
id equal to the stored worker id.  (The claimed cascading shutdown on
the worker id does not exist in the code; see the counterexample.) -/
theorem C1_child_exit_no_shutdown (state : Option String) (childId : String)
    (exitState : Option (List Nat)) :
    handleChildExit state childId exitState = (state, []) := rfl

/-- C1 counterexample: a state whose worker id is chat-1, an exit event
for exactly that child id — yet the number of shutdown requests issued
is not one (it is zero), refuting the claimed cascade. -/
theorem C1_counterexample :
    exampleState.chat_state_actor_id = some "chat-1" ∧
    shutdownCount
      (handleChildExit (some (encodeGitChatState exampleState)) "chat-1" none).2 ≠ 1 :=
  ⟨rfl, by decide⟩

/-- C2: in both the add-message arm and the start-session arm, if the
first send (the message append) fails, no generate-completion send is
issued in that call. -/
theorem C2_fail_fast (s : GitChatState) (sendRes : Nat → Except String Unit)
    (m : Message) (e : String) (h : sendRes 0 = Except.error e) :
    genCount (handleRequest s (Except.ok (GitChatRequest.AddMessage m)) sendRes).2.2 = 0 ∧
    genCount (handleRequest s (Except.ok GitChatRequest.StartChat) sendRes).2.2 = 0 := by
  constructor
  · cases hc : s.chat_state_actor_id with
    | none => simp [handleRequest, hc, genCount]
    | some cid => simp [handleRequest, hc, h, genCount, isGenerateSend]
  · cases ht : s.task with
    | none => simp [handleRequest, ht, genCount]
    | some task =>
      cases hc : s.chat_state_actor_id with
      | none => simp [handleRequest, ht, hc, genCount]
      | some cid => simp [handleRequest, ht, hc, h, genCount, isGenerateSend]

/-- C2 witness: concrete state, message and all-failing send oracle. -/
theorem C2_fail_fast_witness :
    failOracle 0 = Except.error "boom" ∧
    genCount (handleRequest exampleState
      (Except.ok (GitChatRequest.AddMessage exMessage)) failOracle).2.2 = 0 ∧
    genCount (handleRequest exampleState
      (Except.ok GitChatRequest.StartChat) failOracle).2.2 = 0 :=
  ⟨rfl, (C2_fail_fast exampleState failOracle exMessage "boom" rfl).1,
    (C2_fail_fast exampleState failOracle exMessage "boom" rfl).2⟩

/-- C3: once the worker id is set to w, every entry point that returns
a state returns one still encoding worker id w: handle_send and
handle_request re-encode the unchanged decoded state, the supervisor
and channel hooks pass the state blob through untouched, and
handle_child_error never returns a state at all; the field is assigned
during init, from the spawn result. -/
theorem C3_worker_id_set_once (s : GitChatState) (w : String)
    (h : s.chat_state_actor_id = some w) :
    (∀ p r effs, handleSend s p = (Except.ok r, effs) → hasWorker (some r) w) ∧
    (∀ req sendRes, hasWorker (handleRequest s req sendRes).1 w) ∧
    (∀ b c x, hasWorker b w → hasWorker (handleChildExit b c x).1 w) ∧
    (∀ b c, hasWorker b w → hasWorker (handleChildExternalStop b c).1 w) ∧
    (∀ dec lossy b c err,
        handleChildError dec lossy b c err = ChildErrorResult.panic ∨
        ∃ msg, handleChildError dec lossy b c err = ChildErrorResult.err msg) ∧
    (∀ b, hasWorker b w → hasWorker (handleChannelOpen b).1 w) ∧
    (∀ b c, hasWorker b w → hasWorker (handleChannelClose b c) w) ∧
    (∀ b c msg, hasWorker b w → hasWorker (handleChannelMessage b c msg) w) ∧
    (∀ selfId cfg cid st, initActor selfId cfg (Except.ok cid) = Except.ok st →
        st.chat_state_actor_id = some cid) := by
  refine ⟨?_, ?_, ?_, ?_, ?_, ?_, ?_, ?_, ?_⟩
  · intro p r effs hp
    cases p with
    | ok u =>
      simp only [handleSend, Prod.mk.injEq, Except.ok.injEq] at hp
      exact ⟨s, by rw [← hp.1], h⟩
    | error e => simp [handleSend] at hp
  · intro req sendRes
    exact ⟨s, handleRequest_fst s req sendRes, h⟩
  · intro b c x hb
    exact hb
  · intro b c hb
    exact hb
  · intro dec lossy b c err
    obtain ⟨et, data⟩ := err
    cases et with
    | internal =>
      cases data with
      | none => exact Or.inl rfl
      | some bytes =>
        cases hd : dec bytes with
        | ok ev =>
          refine Or.inr ⟨"Internal error in child " ++ c ++ ": " ++ lossy ev.data, ?_⟩
          simp [handleChildError, hd]
        | error e2 =>
          refine Or.inr ⟨"Failed to parse internal error data: " ++ e2, ?_⟩
          simp [handleChildError, hd]
    | runtime =>
      cases data with
      | none => exact Or.inl rfl
      | some bytes => exact Or.inr ⟨_, rfl⟩
    | external =>
      cases data with
      | none => exact Or.inl rfl
      | some bytes => exact Or.inr ⟨_, rfl⟩
  · intro b hb
    exact hb
  · intro b c hb
    exact hb
  · intro b c msg hb
    exact hb
  · intro selfId cfg cid st hst
    obtain ⟨st2, h1, h2⟩ := initActor_sets_worker selfId cfg cid
    rw [hst] at h1
    injection h1 with h3
    exact h3 ▸ h2

/-- C3 witness: the concrete example state has its worker id set, and
applying the theorem shows handle_request keeps encoding that id. -/
theorem C3_worker_id_set_once_witness :
    exampleState.chat_state_actor_id = some "chat-1" ∧
    hasWorker (handleRequest exampleState (Except.error "bad") failOracle).1 "chat-1" :=
  ⟨rfl, (C3_worker_id_set_once exampleState "chat-1" rfl).2.1 (Except.error "bad") failOracle⟩

/-- C4 (code bug evidence): a child-error event whose optional payload
is absent makes handle_child_error panic (the source unwraps the absent
payload), instead of returning the claimed failure that embeds the
child id and payload text. -/
theorem C4_child_error_none_payload_panics :
    handleChildError (fun _ => Except.error "serde") (fun _ => "")
      (some "state") "child-1"
      { error_type := WitErrorType.internal, data := none } =
      ChildErrorResult.panic := rfl

/-- C5: a request payload that fails to decode yields an error-tagged
response and a returned state slot holding exactly the re-encoding of
the decoded input state — byte-identical to the (canonically encoded)
input state bytes — with no host effect issued. -/
theorem C5_malformed_request (s : GitChatState) (e : String)
    (sendRes : Nat → Except String Unit) :
    handleRequest s (Except.error e) sendRes =
      (some (encodeGitChatState s),
       GitChatResponse.Error ("Failed to parse request: " ++ e), []) := rfl

set_option maxRecDepth 100000 in
/-- C6: with no caller overrides and no task, the derived document has
a system prompt ending in the optional-completion wording, temperature
0.7 and max-tokens 8192; with task commit it has temperature 0.3, title
Git Commit Assistant, and a system prompt containing the commit step
list and ending in the mandatory-completion wording. -/
theorem C6_scenarios (selfId : String) :
    (∃ p, (createGitOptimizedConfig selfId none GitAssistantConfig.default).lookup
        "system_prompt" = some (Json.str (p ++ completionInstructionNoTask))) ∧
    (createGitOptimizedConfig selfId none GitAssistantConfig.default).lookup
        "temperature" = some (Json.num (7/10)) ∧
    (createGitOptimizedConfig selfId none GitAssistantConfig.default).lookup
        "max_tokens" = some (Json.num ((8192 : Nat) : Rat)) ∧
    (createGitOptimizedConfig selfId none commitConfig).lookup
        "temperature" = some (Json.num (3/10)) ∧
    (createGitOptimizedConfig selfId none commitConfig).lookup
        "title" = some (Json.str "Git Commit Assistant") ∧
    (∃ p q, (createGitOptimizedConfig selfId none commitConfig).lookup
        "system_prompt" = some (Json.str (p ++ (commitTaskContext ++ q)))) ∧
    (∃ p, (createGitOptimizedConfig selfId none commitConfig).lookup
        "system_prompt" = some (Json.str (p ++ completionInstructionWithTask))) := by
  refine ⟨⟨gitPromptBase, rfl⟩, rfl, rfl, rfl, rfl,
    ⟨gitPromptBase, completionInstructionWithTask, ?_⟩,
    ⟨gitPromptBase ++ commitTaskContext, ?_⟩⟩
  · show (gitConfigBase selfId none commitConfig).lookup "system_prompt" =
      some (Json.str (gitPromptBase ++ (commitTaskContext ++ completionInstructionWithTask)))
    rfl
  · rw [strAppendAssoc]
    show (gitConfigBase selfId none commitConfig).lookup "system_prompt" =
      some (Json.str (gitPromptBase ++ (commitTaskContext ++ completionInstructionWithTask)))
    rfl

/-- C7: every caller override (temperature, max-tokens, title,
description, model selector, tool-server list) appears unchanged in the
output; absent an override the task-specific default is used; and a
pass-through extension field never overwrites a key already produced
(first-writer-wins). -/
theorem C7_override_precedence (selfId : String) (dir : Option String)
    (cfg : GitAssistantConfig) :
    (∀ t, cfg.temperature = some t →
        (createGitOptimizedConfig selfId dir cfg).lookup "temperature" =
          some (Json.num t)) ∧
    (cfg.temperature = none →
        (createGitOptimizedConfig selfId dir cfg).lookup "temperature" =
          some (Json.num (defaultTemperature cfg.task))) ∧
    (∀ n, cfg.max_tokens = some n →
        (createGitOptimizedConfig selfId dir cfg).lookup "max_tokens" =
          some (Json.num (n : Rat))) ∧
    (cfg.max_tokens = none →
        (createGitOptimizedConfig selfId dir cfg).lookup "max_tokens" =
          some (Json.num ((8192 : Nat) : Rat))) ∧
    (∀ t, cfg.title = some t →
        (createGitOptimizedConfig selfId dir cfg).lookup "title" =
          some (Json.str t)) ∧
    (cfg.title = none →
        (createGitOptimizedConfig selfId dir cfg).lookup "title" =
          some (Json.str (defaultTitle cfg.task))) ∧
    (∀ d, cfg.description = some d →
        (createGitOptimizedConfig selfId dir cfg).lookup "description" =
          some (Json.str d)) ∧
    (cfg.description = none →
        (createGitOptimizedConfig selfId dir cfg).lookup "description" =
          some (Json.str (defaultDescription cfg.task))) ∧
    (∀ mc, cfg.model_config = some mc →
        (createGitOptimizedConfig selfId dir cfg).lookup "model_config" = some mc) ∧
    (cfg.model_config = none →
        (createGitOptimizedConfig selfId dir cfg).lookup "model_config" =
          some defaultModelConfig) ∧
    (∀ ms, cfg.mcp_servers = some ms →
        (createGitOptimizedConfig selfId dir cfg).lookup "mcp_servers" = some ms) ∧
    (cfg.mcp_servers = none →
        (createGitOptimizedConfig selfId dir cfg).lookup "mcp_servers" =
          some (defaultMcpServers selfId)) ∧
    (∀ k v, (gitConfigBase selfId dir cfg).lookup k = some v →
        (createGitOptimizedConfig selfId dir cfg).lookup k = some v) := by
  refine ⟨?_, ?_, ?_, ?_, ?_, ?_, ?_, ?_, ?_, ?_, ?_, ?_, ?_⟩
  · intro t ht
    exact create_lookup_of_base (by rw [gitConfigBase_temperature, ht]; rfl)
  · intro ht
    exact create_lookup_of_base (by rw [gitConfigBase_temperature, ht]; rfl)
  · intro n hn
    exact create_lookup_of_base (by rw [gitConfigBase_max_tokens, hn]; rfl)
  · intro hn
    exact create_lookup_of_base (by rw [gitConfigBase_max_tokens, hn]; rfl)
  · intro t ht
    exact create_lookup_of_base (by rw [gitConfigBase_title, ht]; rfl)
  · intro ht
    exact create_lookup_of_base (by rw [gitConfigBase_title, ht]; rfl)
  · intro d hd
    exact create_lookup_of_base (by rw [gitConfigBase_description, hd]; rfl)
  · intro hd
    exact create_lookup_of_base (by rw [gitConfigBase_description, hd]; rfl)
  · intro mc hmc
    exact create_lookup_of_base (by rw [gitConfigBase_model_config, hmc]; rfl)
  · intro hmc
    exact create_lookup_of_base (by rw [gitConfigBase_model_config, hmc]; rfl)
  · intro ms hms
    exact create_lookup_of_base (by rw [gitConfigBase_mcp_servers, hms]; rfl)
  · intro hms
    exact create_lookup_of_base (by rw [gitConfigBase_mcp_servers, hms]; rfl)
  · intro k v hv
    exact create_lookup_of_base hv

/-- C7 witness: with every override supplied and a pass-through field
colliding on the temperature key, the caller temperature 0.5 survives
unchanged in the output. -/
theorem C7_override_precedence_witness :
    wCfg.temperature = some (1/2) ∧
    (createGitOptimizedConfig "s" none wCfg).lookup "temperature" =
      some (Json.num (1/2)) :=
  ⟨rfl, (C7_override_precedence "s" none wCfg).1 (1/2) rfl⟩

/-- C8: configuration derivation is deterministic — equal self id,
directory hint and caller configuration give equal output documents.
The embedding is a pure function, exactly as the source computes the
document from its arguments alone (no clock or randomness is read). -/
theorem C8_deterministic (selfId1 selfId2 : String) (dir1 dir2 : Option String)
    (cfg1 cfg2 : GitAssistantConfig)
    (h1 : selfId1 = selfId2) (h2 : dir1 = dir2) (h3 : cfg1 = cfg2) :
    createGitOptimizedConfig selfId1 dir1 cfg1 =
      createGitOptimizedConfig selfId2 dir2 cfg2 := by
  subst h1
  subst h2
  subst h3
  rfl

/-- C8 witness: concrete identical inputs, identical outputs. -/
theorem C8_deterministic_witness :
    ("s" : String) = "s" ∧ (none : Option String) = none ∧
    GitAssistantConfig.default = GitAssistantConfig.default ∧
    createGitOptimizedConfig "s" none GitAssistantConfig.default =
      createGitOptimizedConfig "s" none GitAssistantConfig.default :=
  ⟨rfl, rfl, rfl,
    C8_deterministic "s" "s" none none GitAssistantConfig.default
      GitAssistantConfig.default rfl rfl rfl⟩

/-- C9: a payload decoding as the task-completion signal makes
handle_send issue exactly one shutdown request and return the
re-encoded unchanged state; any payload that does not decode returns a
failure with no effect issued. -/
theorem C9_handle_send (s : GitChatState) :
    handleSend s (Except.ok ()) =
      (Except.ok (encodeGitChatState s), [HostEffect.shutdown none]) ∧
    (∀ e, handleSend s (Except.error e) =
      (Except.error ("Failed to parse message: " ++ e), [])) :=
  ⟨rfl, fun _ => rfl⟩

/-- C10: for every decodable input state, every request parse outcome
and every outcome of the host sends, the state slot handle_request
returns is the encoding of the unchanged input state value — no request
variant mutates any field of the orchestrator state. -/
theorem C10_state_frame (s : GitChatState) (req : Except String GitChatRequest)
    (sendRes : Nat → Except String Unit) :
    (handleRequest s req sendRes).1 = some (encodeGitChatState s) :=
  handleRequest_fst s req sendRes

end GitChat
